import Mathlib

/-!
Shallow embedding of the mini-kafka server core (src/kafka/server.go,
src/kafka/request_handler.go) and proofs checking the specification's
claims against it.

Modelling conventions:
- Go errors are `Option GoError` (`none` = nil).
- Go `time.Duration` (int64 nanoseconds) is `Int`; only comparisons are used,
  so overflow is irrelevant.
- A wrapped socket carries an oracle field `underlyingClose` giving the result
  the underlying `net.Listener.Close()` / `net.Conn.Close()` call would return
  when (and if) it is invoked; the once-guard ensures it is consulted at most
  once.
- A nil-interface method call (Go runtime panic) is modelled as `Except GoPanic`.
- Goroutine scheduling nondeterminism in the per-connection processing stage is
  modelled by an explicit completion order (a permutation of the indices of the
  requests whose handler succeeded); every such permutation is a possible
  schedule because the per-request goroutines synchronise only on the shared
  unbuffered response channel.
-/

namespace MiniKafka

/-- A Go error value. `EOF` is io.EOF, `ErrClosed` is net.ErrClosed,
`mk msg` is errors.New(msg) or any other error. -/
inductive GoError where
  | EOF
  | ErrClosed
  | mk (msg : String)
  deriving DecidableEq, Repr

/-- A Go runtime panic relevant to this code. -/
inductive GoPanic where
  | nilPointerDereference
  deriving DecidableEq, Repr

/-- ServerConfig (server.go lines 29-33). `ConnIdleTimeout` is a
time.Duration, i.e. int64 nanoseconds. -/
structure ServerConfig where
  Host : String
  Port : String
  ConnIdleTimeout : Int
  deriving DecidableEq, Repr

/-- onceCloseListener (server.go lines 37-48): wraps a net.Listener, protecting
it from multiple Close calls. `closed` records whether sync.Once has run,
`closeErr` the stored result of the first close, and `underlyingClose` is the
oracle for what the wrapped Listener.Close() returns if invoked. -/
structure onceCloseListener where
  closed : Bool
  closeErr : Option GoError
  underlyingClose : Option GoError
  deriving DecidableEq, Repr

/-- onceCloseListener.Close (server.go lines 43-48): on the first call, run the
underlying close and store its result; on later calls, return the stored
result without touching the underlying listener. Returns the updated wrapper
and the returned error. -/
def onceCloseListener.Close (oc : onceCloseListener) :
    onceCloseListener × Option GoError :=
  if oc.closed then (oc, oc.closeErr)
  else ({ oc with closed := true, closeErr := oc.underlyingClose },
        oc.underlyingClose)

/-- onceCloseConn (server.go lines 52-56): wraps a net.Conn, protecting it from
multiple Close calls. `id` identifies the underlying connection (its remote
address); the other fields are as in `onceCloseListener`. -/
structure onceCloseConn where
  id : Nat
  closed : Bool
  closeErr : Option GoError
  underlyingClose : Option GoError
  deriving DecidableEq, Repr

/-- onceCloseConn.Close (server.go lines 58-67): same once-guard as the
listener wrapper (the log.Debug calls have no observable effect). -/
def onceCloseConn.Close (oc : onceCloseConn) :
    onceCloseConn × Option GoError :=
  if oc.closed then (oc, oc.closeErr)
  else ({ oc with closed := true, closeErr := oc.underlyingClose },
        oc.underlyingClose)

/-- Server (server.go lines 23-27). `listener` is nil (`none`) until Start
binds it (server.go line 118); `conns` is the connection registry
`map[net.Conn]struct\x7b\x7d`, modelled as the list of registered wrapped
connections. -/
structure Server where
  config : ServerConfig
  listener : Option onceCloseListener
  conns : List onceCloseConn
  deriving DecidableEq, Repr

/-- NewServer (server.go lines 69-78): rejects a non-positive ConnIdleTimeout,
otherwise returns a server with the given config, a nil listener and an empty
connection registry. -/
def NewServer (config : ServerConfig) : Except GoError Server :=
  if config.ConnIdleTimeout ≤ 0 then
    .error (.mk "ConnIdleTimeout must be greater than 0")
  else
    .ok { config := config, listener := none, conns := [] }

/-- Server.Config (server.go lines 80-82). -/
def Server.Config (s : Server) : ServerConfig :=
  s.config

/-- The loop body of ForceShutdown over the registry (server.go lines 93-98):
every connection's Close is invoked (a close error is only logged) and the
entry is deleted from the map. Returns the post-Close states of the
connections, in registry order, together with the logged errors. -/
def closeAllConns : List onceCloseConn → List onceCloseConn × List GoError
  | [] => ([], [])
  | c :: rest =>
    let (c', err) := c.Close
    let (cs, errs) := closeAllConns rest
    (c' :: cs, (match err with | some e => [e] | none => []) ++ errs)

/-- Server.ForceShutdown (server.go lines 87-101). `s.listener.Close()` on a
nil listener (never assigned by Start) is a nil-interface method call, a Go
runtime panic. If the listener close returns a non-nil error, the method
returns it at once (server.go lines 89-91) without entering the registry loop.
Otherwise every registered connection is closed and deleted; connection close
errors are only logged and the method returns nil. The result carries the
updated server, the post-Close states of the connections whose Close was
invoked, and the returned error. -/
def Server.ForceShutdown (s : Server) :
    Except GoPanic (Server × List onceCloseConn × Option GoError) :=
  match s.listener with
  | none => .error .nilPointerDereference
  | some l =>
    match (l.Close).2 with
    | some e => .ok ({ s with listener := some (l.Close).1 }, [], some e)
    | none =>
      .ok ({ s with listener := some (l.Close).1, conns := [] },
           (closeAllConns s.conns).1, none)

/-- Server.Shutdown (server.go lines 105-109): the body is
`return s.ForceShutdown()` (the graceful path is a TODO). -/
def Server.Shutdown (s : Server) :
    Except GoPanic (Server × List onceCloseConn × Option GoError) :=
  s.ForceShutdown

/-- models.Request as used by the pipeline: an opaque payload `Data` and the
`RemoteAddr` stamped by createRequestChan (server.go line 222). -/
structure Request where
  Data : String
  RemoteAddr : String
  deriving DecidableEq, Repr

/-- handleRequest (request_handler.go lines 8-11): returns the bytes of
"Hello " + request.Data + "!" and a nil error. Byte strings are modelled as
`String`. -/
def handleRequest (request : Request) : Except GoError String :=
  .ok ("Hello " ++ request.Data ++ "!")

/-- Whether a handler invocation returns a nil error. -/
def handlerOk (handler : Request → Except GoError String) (r : Request) :
    Bool :=
  match handler r with
  | .ok _ => true
  | .error _ => false

/-- Indices (in arrival order, 0-based) of the requests whose handler
invocation succeeds: exactly these goroutines send a response on the response
channel (server.go lines 283-287); an erroring invocation only logs. -/
def successIndices (handler : Request → Except GoError String)
    (reqs : List Request) : List Nat :=
  (List.range reqs.length).filter fun i =>
    reqs[i]?.elim false (handlerOk handler)

/-- A possible completion order of the per-request goroutines spawned by
createResponseChan (server.go lines 272-290): the stage spawns one goroutine
per request in arrival order, each successful one performs exactly one send on
the shared unbuffered response channel, and nothing synchronises the sends, so
the observable channel order is an arbitrary permutation of the success
indices. -/
def IsCompletionOrder (handler : Request → Except GoError String)
    (reqs : List Request) (sched : List Nat) : Prop :=
  sched.Perm (successIndices handler reqs)

/-- The response produced for the i-th request, if its handler succeeds. -/
def responseOf (handler : Request → Except GoError String)
    (reqs : List Request) (i : Nat) : Option String :=
  reqs[i]?.bind fun r => (handler r).toOption

/-- The sequence of responses observed on the response channel under
completion order `sched` (server.go lines 266-295). sendResponses (server.go
lines 297-314) writes and flushes each received response in channel order, so
this is also the order of the response bytes on the socket. -/
def createResponseChanOutput (handler : Request → Except GoError String)
    (reqs : List Request) (sched : List Nat) : List String :=
  sched.filterMap (responseOf handler reqs)

/-- The read loop of createRequestChan (server.go lines 196-226): the
idle-timeout context is created once, before the loop, by
context.WithTimeout(ctx, config.ConnIdleTimeout) (server.go line 200) and is
never reset, so its deadline is the fixed absolute time `connIdleTimeout`
(times are nanoseconds measured from loop start). A read completing at time t
with t < deadline is forwarded downstream; at the first read completion at or
past the deadline the requestCtx.Done branch is taken and the loop returns.
Input: the (time, request) pairs produced by createReadRequestChan in
increasing time order. Output: the requests forwarded on requestChan. -/
def createRequestChanForwarded (connIdleTimeout : Int) :
    List (Int × Request) → List Request
  | [] => []
  | (t, r) :: rest =>
    if t < connIdleTimeout then
      r :: createRequestChanForwarded connIdleTimeout rest
    else []

/-- Modelled from the spec: the read loop whose idle-timeout window restarts at
each successful read ("if no complete request is decoded within the configured
idle timeout since the last successful read (or since connection start), the
stage is cancelled"). `lastRead` is the time of the last successful read
(loop start = 0 initially); a read completing within `connIdleTimeout` of it
is forwarded and restarts the window. To be compared with
`createRequestChanForwarded`, the loop the source actually runs. -/
def idleWindowForwardedSpec (connIdleTimeout : Int) (lastRead : Int) :
    List (Int × Request) → List Request
  | [] => []
  | (t, r) :: rest =>
    if t < lastRead + connIdleTimeout then
      r :: idleWindowForwardedSpec connIdleTimeout t rest
    else []

/-! Concrete inputs used by counterexamples and witnesses. -/

/-- A config with a positive idle timeout (1 minute, as in app/main.go). -/
def cfgPos : ServerConfig :=
  { Host := "0.0.0.0", Port := "9092", ConnIdleTimeout := 60000000000 }

/-- A config with idle timeout 0, rejected by NewServer. -/
def cfgZero : ServerConfig :=
  { Host := "0.0.0.0", Port := "9092", ConnIdleTimeout := 0 }

/-- The server NewServer returns for `cfgPos`. -/
def serverPos : Server :=
  { config := cfgPos, listener := none, conns := [] }

/-- A registered connection that has not been closed yet and whose underlying
close would succeed. -/
def connOpen (id : Nat) : onceCloseConn :=
  { id := id, closed := false, closeErr := none, underlyingClose := none }

/-- A registered connection whose underlying close fails. -/
def connBad (id : Nat) : onceCloseConn :=
  { id := id, closed := false, closeErr := none,
    underlyingClose := some (.mk "use of closed network connection") }

/-- A bound listener whose close succeeds. -/
def listenerOK : onceCloseListener :=
  { closed := false, closeErr := none, underlyingClose := none }

/-- A bound listener whose close fails. -/
def listenerBad : onceCloseListener :=
  { closed := false, closeErr := none,
    underlyingClose := some (.mk "close tcp: i/o error") }

/-- The state of listenerOK after its first Close. -/
def listenerOKClosed : onceCloseListener :=
  { closed := true, closeErr := none, underlyingClose := none }

/-- The state of listenerBad after its first Close. -/
def listenerBadClosed : onceCloseListener :=
  { closed := true, closeErr := some (.mk "close tcp: i/o error"),
    underlyingClose := some (.mk "close tcp: i/o error") }

/-- The state of connOpen id after its first Close. -/
def connDone (id : Nat) : onceCloseConn :=
  { id := id, closed := true, closeErr := none, underlyingClose := none }

/-- The state of connBad id after its first Close. -/
def connBadDone (id : Nat) : onceCloseConn :=
  { id := id, closed := true,
    closeErr := some (.mk "use of closed network connection"),
    underlyingClose := some (.mk "use of closed network connection") }

/-- A started server whose listener close will fail, with one registered
connection. -/
def srvBadListener : Server :=
  { config := cfgPos, listener := some listenerBad, conns := [connOpen 1] }

/-- A started server whose listener close succeeds, with one registered
connection whose own close fails and one whose close succeeds. -/
def srvBadConn : Server :=
  { config := cfgPos, listener := some listenerOK,
    conns := [connBad 1, connOpen 2] }

/-- A started server with two healthy registered connections. -/
def srvTwoConns : Server :=
  { config := cfgPos, listener := some listenerOK,
    conns := [connOpen 1, connOpen 2] }

/-- Requests with payloads "A" and "B" arriving in that order. -/
def reqsAB : List Request :=
  [{ Data := "A", RemoteAddr := "c" }, { Data := "B", RemoteAddr := "c" }]

/-- Requests with payloads "A", "B", "C" arriving in that order (the concrete
scenario of the spec). -/
def reqsABC : List Request :=
  [{ Data := "A", RemoteAddr := "c" }, { Data := "B", RemoteAddr := "c" },
   { Data := "C", RemoteAddr := "c" }]

/-- A handler that fails on payload "bad" and otherwise behaves like
handleRequest; used to exercise the error branch of createResponseChan
(server.go lines 283-285), which the repository's own handler never takes. -/
def demoHandler (r : Request) : Except GoError String :=
  if r.Data = "bad" then .error (.mk "boom") else handleRequest r

/-- Requests "A", "bad", "C": the handler errors on the middle one. -/
def reqsABadC : List Request :=
  [{ Data := "A", RemoteAddr := "c" }, { Data := "bad", RemoteAddr := "c" },
   { Data := "C", RemoteAddr := "c" }]

/-- Read completions at t = 5 and t = 12 (out of a 10-unit idle timeout):
the gap between them is 7 < 10, but the second lies past the fixed deadline. -/
def readsC2 : List (Int × Request) :=
  [(5, { Data := "A", RemoteAddr := "c" }),
   (12, { Data := "B", RemoteAddr := "c" })]

/-! Helper lemmas shared by several claim theorems. -/

/-- A connection wrapper is marked closed after any Close call. -/
theorem onceCloseConn_closed_after_Close (c : onceCloseConn) :
    (c.Close.1).closed = true := by
  unfold onceCloseConn.Close
  by_cases h : c.closed <;> simp [h]

/-- The registry loop of ForceShutdown passes every registered connection
through Close, in order. -/
theorem closeAllConns_fst (cs : List onceCloseConn) :
    (closeAllConns cs).1 = cs.map fun c => c.Close.1 := by
  induction cs with
  | nil => rfl
  | cons c rest ih => simp [closeAllConns, ih]

/-- C7: for both the wrapped listening socket and every wrapped accepted
socket, a second (or later) Close call performs no underlying close — the
wrapper state does not change and the result does not depend on what the
underlying close would now return — and returns the result of the first Close
call; Close();Close() yields the same state and result as a single Close(). -/
theorem once_close_idempotent :
    (∀ l : onceCloseListener, (l.Close.1).Close = (l.Close.1, l.Close.2))
    ∧ (∀ c : onceCloseConn, (c.Close.1).Close = (c.Close.1, c.Close.2))
    ∧ (∀ (l : onceCloseListener) (u : Option GoError),
        ({ l.Close.1 with underlyingClose := u }).Close.2 = l.Close.2)
    ∧ (∀ (c : onceCloseConn) (u : Option GoError),
        ({ c.Close.1 with underlyingClose := u }).Close.2 = c.Close.2) := by
  refine ⟨fun l => ?_, fun c => ?_, fun l u => ?_, fun c u => ?_⟩
  · unfold onceCloseListener.Close
    by_cases h : l.closed <;> simp [h]
  · unfold onceCloseConn.Close
    by_cases h : c.closed <;> simp [h]
  · unfold onceCloseListener.Close
    by_cases h : l.closed <;> simp [h]
  · unfold onceCloseConn.Close
    by_cases h : c.closed <;> simp [h]

/-- C8: NewServer fails with a configuration error exactly when
ConnIdleTimeout is non-positive, and on success the returned server's Config()
is the given config. -/
theorem newServer_config_validation (config : ServerConfig) :
    ((∃ e, NewServer config = .error e) ↔ config.ConnIdleTimeout ≤ 0)
    ∧ ∀ s, NewServer config = .ok s → s.Config = config := by
  unfold NewServer
  by_cases h : config.ConnIdleTimeout ≤ 0 <;>
    simp [h, Server.Config]

/-- Witness for C8 at the concrete configs: construction with idle timeout 0
fails, and with the 1-minute timeout of app/main.go the returned server's
Config is the given config. -/
theorem newServer_config_validation_witness :
    cfgZero.ConnIdleTimeout ≤ 0 ∧ serverPos.Config = cfgPos := by
  constructor
  · exact (newServer_config_validation cfgZero).1.mp
      ⟨.mk "ConnIdleTimeout must be greater than 0", by rfl⟩
  · exact (newServer_config_validation cfgPos).2 serverPos (by rfl)

/-- C10: a server as returned by NewServer has a nil listener — the field is
only assigned inside Start (server.go line 118) — and calling ForceShutdown
(and hence Shutdown) on it dereferences the nil listener: a runtime panic. -/
theorem forceShutdown_before_start_panics (config : ServerConfig) (s : Server)
    (hok : NewServer config = .ok s) :
    s.listener = none
    ∧ s.ForceShutdown = .error .nilPointerDereference
    ∧ s.Shutdown = .error .nilPointerDereference := by
  unfold NewServer at hok
  by_cases h : config.ConnIdleTimeout ≤ 0
  · simp [h] at hok
  · simp [h] at hok
    subst hok
    exact ⟨rfl, rfl, rfl⟩

/-- Witness for C10 at the concrete config of app/main.go. -/
theorem forceShutdown_before_start_panics_witness :
    serverPos.listener = none
    ∧ serverPos.ForceShutdown = .error .nilPointerDereference
    ∧ serverPos.Shutdown = .error .nilPointerDereference :=
  forceShutdown_before_start_panics cfgPos serverPos (by rfl)

/-- C2: the idle-timeout window is NOT restarted by a successful read. With
timeout 10, reads completing at t = 5 and t = 12 (gap 7 < 10): the loop the
source runs (fixed deadline created once at server.go line 200) forwards only
the first request and is cancelled at t = 10, while the loop the spec
describes (window restarting at each successful read) forwards both. -/
theorem idle_window_not_restarted :
    createRequestChanForwarded 10 readsC2 =
      [{ Data := "A", RemoteAddr := "c" }]
    ∧ idleWindowForwardedSpec 10 0 readsC2 =
      [{ Data := "A", RemoteAddr := "c" }, { Data := "B", RemoteAddr := "c" }]
    ∧ createRequestChanForwarded 10 readsC2 ≠
        idleWindowForwardedSpec 10 0 readsC2 := by
  refine ⟨by decide, by decide, by decide⟩

/-- C3: Shutdown is literally ForceShutdown (server.go line 108, the graceful
path is a TODO), contradicting its own doc comment ("gracefully shuts down the
server without interrupting any active connections"): on a server with two
live registered connections, Shutdown immediately invokes Close on both and
returns — no graceful-drain signal, no flushing of dispatched responses, no
waiting for the pipelines to reach Closed. -/
theorem shutdown_collapses_to_forceShutdown :
    (∀ s : Server, s.Shutdown = s.ForceShutdown)
    ∧ Server.Shutdown srvTwoConns =
        .ok ({ srvTwoConns with listener := some listenerOKClosed, conns := [] },
             [connDone 1, connDone 2], none) := by
  exact ⟨fun s => rfl, by rfl⟩

/-- C1 (evaluation at the failing input): with two requests "A" then "B" on
one connection and a schedule in which B's handler goroutine sends its
response first — a possible completion order, since nothing orders the sends
on the shared response channel — the bytes written to the socket are
"Hello B!" then "Hello A!", not the arrival order. The code has no reorder
buffer and no sequence numbers, so response order follows handler completion
order. -/
theorem responses_follow_completion_order_not_arrival :
    IsCompletionOrder handleRequest reqsAB [1, 0]
    ∧ createResponseChanOutput handleRequest reqsAB [1, 0] =
        ["Hello B!", "Hello A!"]
    ∧ createResponseChanOutput handleRequest reqsAB [1, 0] ≠
        ["Hello A!", "Hello B!"] := by
  refine ⟨?_, by rfl, by decide⟩
  have hsi : successIndices handleRequest reqsAB = [0, 1] := by rfl
  unfold IsCompletionOrder
  rw [hsi]
  exact List.Perm.swap 0 1 []

/-- C9 (evaluation at the failing input): handleRequest does return
"Hello " + Data + "!" with a nil error for every request, but for the
concrete scenario "A", "B", "C" the responses reach the socket in handler
completion order: the valid schedule [2, 0, 1] yields "Hello C!",
"Hello A!", "Hello B!"; the claimed order only arises under the identity
schedule [0, 1, 2]. -/
theorem hello_responses_in_completion_order :
    (∀ r : Request, handleRequest r = .ok ("Hello " ++ r.Data ++ "!"))
    ∧ IsCompletionOrder handleRequest reqsABC [2, 0, 1]
    ∧ createResponseChanOutput handleRequest reqsABC [2, 0, 1] =
        ["Hello C!", "Hello A!", "Hello B!"]
    ∧ createResponseChanOutput handleRequest reqsABC [0, 1, 2] =
        ["Hello A!", "Hello B!", "Hello C!"]
    ∧ ["Hello C!", "Hello A!", "Hello B!"] ≠
        ["Hello A!", "Hello B!", "Hello C!"] := by
  refine ⟨fun r => rfl, ?_, by rfl, by rfl, by decide⟩
  have hsi : successIndices handleRequest reqsABC = [0, 1, 2] := by rfl
  unfold IsCompletionOrder
  rw [hsi]
  exact (List.Perm.swap 0 2 [1]).trans (List.Perm.cons 0 (List.Perm.swap 1 2 []))

/-- C6: if the handler invocation for request k returns an error, then under
every possible completion order k's goroutine never sends on the response
channel (no response bytes for request k), while every later request whose
handler succeeds still has its goroutine send, and its response appears in the
socket output: the dropped response does not stall the connection (there is no
reorder cursor to stall). -/
theorem handler_error_drops_only_that_request
    (handler : Request → Except GoError String) (reqs : List Request)
    (sched : List Nat) (k : Nat) (hk : k < reqs.length) (e : GoError)
    (hsched : IsCompletionOrder handler reqs sched)
    (he : handler reqs[k] = .error e) :
    k ∉ sched
    ∧ ∀ j, ∀ hj : j < reqs.length, k < j → ∀ resp,
        handler reqs[j] = .ok resp →
          j ∈ sched ∧ resp ∈ createResponseChanOutput handler reqs sched := by
  have hmem : ∀ i, i ∈ sched ↔ i ∈ successIndices handler reqs :=
    fun i => hsched.mem_iff
  constructor
  · intro hk_in
    have h1 := (hmem k).mp hk_in
    unfold successIndices at h1
    rw [List.mem_filter] at h1
    have h2 := h1.2
    rw [List.getElem?_eq_getElem hk] at h2
    simp [Option.elim, handlerOk, he] at h2
  · intro j hj _hkj resp hresp
    have hjin : j ∈ successIndices handler reqs := by
      unfold successIndices
      rw [List.mem_filter]
      refine ⟨List.mem_range.mpr hj, ?_⟩
      rw [List.getElem?_eq_getElem hj]
      simp [Option.elim, handlerOk, hresp]
    refine ⟨(hmem j).mpr hjin, ?_⟩
    unfold createResponseChanOutput
    rw [List.mem_filterMap]
    refine ⟨j, (hmem j).mpr hjin, ?_⟩
    unfold responseOf
    rw [List.getElem?_eq_getElem hj]
    show (handler reqs[j]).toOption = some resp
    rw [hresp]
    rfl

/-- Witness for C6: requests "A", "bad", "C" with a handler failing on "bad"
(k = 1), schedule [2, 0]: request 1 never sends, while request 2's response
"Hello C!" is on the socket. -/
theorem handler_error_drops_only_that_request_witness :
    (1 : Nat) ∉ ([2, 0] : List Nat)
    ∧ (2 : Nat) ∈ ([2, 0] : List Nat)
    ∧ "Hello C!" ∈ createResponseChanOutput demoHandler reqsABadC [2, 0] := by
  have hsi : successIndices demoHandler reqsABadC = [0, 2] := by rfl
  have hsched : IsCompletionOrder demoHandler reqsABadC [2, 0] := by
    unfold IsCompletionOrder
    rw [hsi]
    exact List.Perm.swap 0 2 []
  have h := handler_error_drops_only_that_request demoHandler reqsABadC [2, 0] 1
    (by decide) (.mk "boom") hsched (by rfl)
  have h3 := h.2 2 (by decide) (by decide) "Hello C!" (by rfl)
  exact ⟨h.1, h3.1, h3.2⟩

/-- C4 counterexample: at srvBadListener (listener close fails, one live
registered connection), ForceShutdown returns the listener error at once: no
connection Close is attempted (the returned closed-list is empty and the
registry still holds the untouched connection). At srvBadConn (listener close
succeeds, the first connection's close fails), the failed connection close is
only logged: ForceShutdown returns nil, so the error is neither aggregated nor
propagated. -/
theorem forceShutdown_not_aggregating :
    Server.ForceShutdown srvBadListener =
      .ok ({ srvBadListener with listener := some listenerBadClosed },
           [], some (.mk "close tcp: i/o error"))
    ∧ (connOpen 1).closed = false
    ∧ srvBadListener.conns = [connOpen 1]
    ∧ Server.ForceShutdown srvBadConn =
        .ok ({ srvBadConn with listener := some listenerOKClosed, conns := [] },
             [connBadDone 1, connDone 2], none) := by
  exact ⟨by rfl, by rfl, by rfl, by rfl⟩

/-- C4 (amended): if the listener close returns an error, ForceShutdown
returns that error immediately and attempts no connection close; if the
listener close returns nil, every registered connection is passed through
Close (even when some of those closes fail — each is marked closed) but the
connection close errors are only logged and ForceShutdown returns nil. -/
theorem forceShutdown_error_behaviour (s : Server) (l : onceCloseListener)
    (hl : s.listener = some l) :
    (∀ e, (l.Close).2 = some e →
        s.ForceShutdown =
          .ok ({ s with listener := some (l.Close).1 }, [], some e))
    ∧ ((l.Close).2 = none →
        s.ForceShutdown =
          .ok ({ s with listener := some (l.Close).1, conns := [] },
               s.conns.map (fun c => (c.Close).1), none)
          ∧ ∀ c ∈ s.conns.map (fun c => (c.Close).1), c.closed = true) := by
  constructor
  · intro e he
    unfold Server.ForceShutdown
    simp only [hl, he]
  · intro hok
    constructor
    · unfold Server.ForceShutdown
      simp only [hl, hok, closeAllConns_fst]
    · intro c hc
      rw [List.mem_map] at hc
      obtain ⟨c0, _, rfl⟩ := hc
      exact onceCloseConn_closed_after_Close c0

/-- Witness for C4 amended: the listener-error branch at srvBadListener and
the logged-only branch at srvBadConn. -/
theorem forceShutdown_error_behaviour_witness :
    Server.ForceShutdown srvBadListener =
      .ok ({ srvBadListener with listener := some (listenerBad.Close).1 },
           [], some (.mk "close tcp: i/o error"))
    ∧ Server.ForceShutdown srvBadConn =
        .ok ({ srvBadConn with listener := some (listenerOK.Close).1, conns := [] },
             srvBadConn.conns.map (fun c => (c.Close).1), none) := by
  constructor
  · exact (forceShutdown_error_behaviour srvBadListener listenerBad rfl).1
      (.mk "close tcp: i/o error") (by rfl)
  · exact ((forceShutdown_error_behaviour srvBadConn listenerOK rfl).2
      (by rfl)).1

/-- C5 counterexample: at srvBadListener the listener close fails, so this
call of ForceShutdown returns with the registered connection never Closed and
the registry still non-empty — refuting the claim for every call. -/
theorem forceShutdown_registry_not_emptied :
    Server.ForceShutdown srvBadListener =
      .ok ({ srvBadListener with listener := some listenerBadClosed },
           [], some (.mk "close tcp: i/o error"))
    ∧ ({ srvBadListener with listener := some listenerBadClosed } : Server).conns =
        [connOpen 1]
    ∧ (connOpen 1).closed = false
    ∧ [connOpen 1] ≠ ([] : List onceCloseConn) := by
  exact ⟨by rfl, by rfl, by rfl, by decide⟩

/-- C5 (amended): when the listener close returns nil, ForceShutdown passes
every connection registered at the start of the call through Close (the
returned closed-list is the pointwise Close of the registry, all marked
closed, one per registered connection) and the registry is empty afterwards;
when the listener close fails, it returns early with the registry untouched. -/
theorem forceShutdown_empties_registry_when_listener_ok (s : Server)
    (l : onceCloseListener) (hl : s.listener = some l)
    (hok : (l.Close).2 = none) :
    s.ForceShutdown =
      .ok ({ s with listener := some (l.Close).1, conns := [] },
           s.conns.map (fun c => (c.Close).1), none)
    ∧ (∀ c ∈ s.conns.map (fun c => (c.Close).1), c.closed = true)
    ∧ (s.conns.map (fun c => (c.Close).1)).length = s.conns.length := by
  refine ⟨?_, ?_, List.length_map s.conns _⟩
  · unfold Server.ForceShutdown
    simp only [hl, hok, closeAllConns_fst]
  · intro c hc
    rw [List.mem_map] at hc
    obtain ⟨c0, _, rfl⟩ := hc
    exact onceCloseConn_closed_after_Close c0

/-- Witness for C5 amended at srvTwoConns: both registered connections are
closed and the registry in the returned server is empty. -/
theorem forceShutdown_empties_registry_when_listener_ok_witness :
    Server.ForceShutdown srvTwoConns =
      .ok ({ srvTwoConns with listener := some (listenerOK.Close).1, conns := [] },
           srvTwoConns.conns.map (fun c => (c.Close).1), none)
    ∧ (srvTwoConns.conns.map (fun c => (c.Close).1)).length =
        srvTwoConns.conns.length := by
  have h := forceShutdown_empties_registry_when_listener_ok srvTwoConns
    listenerOK rfl (by rfl)
  exact ⟨h.1, h.2.2⟩

end MiniKafka
